import Mathlib

/-!
Verification of the coordinate-mapping, export and gesture logic of
src/src/components/EditorCanvas.tsx.

The embedding models the numeric core of the component with exact rationals:
JavaScript numbers are modelled by ℚ, Math.floor / Math.round / Math.max /
Math.min by their exact counterparts. Each definition mirrors one piece of
the source component.
-/

namespace OniCustom

/-- JavaScript Math.floor on exact rationals. -/
def jsFloor (q : ℚ) : ℚ := ((⌊q⌋ : ℤ) : ℚ)

/-- JavaScript Math.round (round half toward positive infinity) on exact rationals. -/
def jsRound (q : ℚ) : ℚ := ((⌊q + 1 / 2⌋ : ℤ) : ℚ)

/-- Design-space pixel dimensions of a product (productDimensions values). -/
structure DesignSpec where
  width : ℚ
  height : ℚ
  deriving DecidableEq, Repr

/-- The imageProps state of EditorCanvas: placement of the user image in
display-space pixels, plus the rotation/scale fields the state carries. -/
@[ext]
structure ImagePlacement where
  x : ℚ
  y : ℚ
  width : ℚ
  height : ℚ
  rotation : ℚ
  scaleX : ℚ
  scaleY : ℚ
  deriving DecidableEq, Repr

/-- Natural pixel dimensions of the uploaded source image (sourceImageSize state). -/
structure SourceSize where
  width : ℚ
  height : ℚ
  deriving DecidableEq, Repr

/-- A pointer position (clientX, clientY) or any 2-d point. -/
structure Point where
  x : ℚ
  y : ℚ
  deriving DecidableEq, Repr

/-- Geometry of the user image on the temporary export stage, in export pixels. -/
structure ExportGeometry where
  x : ℚ
  y : ℚ
  width : ℚ
  height : ℚ
  deriving DecidableEq, Repr

/-- productDimensions: the product-id → design-size lookup table of EditorCanvas. -/
def productDimensions (productId : String) : Option DesignSpec :=
  if productId = "mousepad-90x40" then some ⟨900, 400⟩
  else if productId = "mousepad-60x40" then some ⟨600, 400⟩
  else if productId = "keycap-kda" then some ⟨400, 400⟩
  else if productId = "spacebar" then some ⟨600, 200⟩
  else none

/-- The design constant: productDimensions lookup with the 600×400 default fallback. -/
def designFor (productId : String) : DesignSpec :=
  (productDimensions productId).getD ⟨600, 400⟩

/-- maxVisual from the displayWidth initializer and handleResize:
min(800, floor(viewportWidth * (viewportWidth < 768 ? 0.85 : 0.9)) - 18),
where 18 is the horizontal frame (2 * 8px padding + 2 * 1px border). -/
def maxVisual (viewportWidth : ℚ) : ℚ :=
  min 800 (jsFloor (viewportWidth * (if viewportWidth < 768 then 85 / 100 else 9 / 10)) - 18)

/-- The body of handleResize: max(100, min(design.width, maxVisual)). -/
def handleResizeWidth (design : DesignSpec) (viewportWidth : ℚ) : ℚ :=
  max 100 (min design.width (maxVisual viewportWidth))

/-- The useState initializer for displayWidth. A viewportWidth of none models the
branch where window is undefined (server-side rendering). -/
def displayWidthFor (design : DesignSpec) (viewportWidth : Option ℚ) : ℚ :=
  match viewportWidth with
  | none => min 800 design.width
  | some vw => max 100 (min design.width (maxVisual vw))

/-- displayHeight, derived on every render: (displayWidth * design.height) / design.width. -/
def displayHeightFor (design : DesignSpec) (displayWidth : ℚ) : ℚ :=
  displayWidth * design.height / design.width

/-- scaleToDesign inside getCanvasDataUrl: design.width / displayWidth. -/
def scaleToDesign (design : DesignSpec) (displayWidth : ℚ) : ℚ :=
  design.width / displayWidth

/-- The exportScale computation of getCanvasDataUrl: 1 when sourceImageSize is
null, otherwise max(1, min(source.width / max(1, placedWidthInDesign),
source.height / max(1, placedHeightInDesign))). -/
def exportScaleOf (sourceImageSize : Option SourceSize) (design : DesignSpec)
    (displayWidth : ℚ) (props : ImagePlacement) : ℚ :=
  match sourceImageSize with
  | none => 1
  | some s =>
    let std := scaleToDesign design displayWidth
    let placedImageWidthInDesign := props.width * std
    let placedImageHeightInDesign := props.height * std
    let scaleByWidth := s.width / max 1 placedImageWidthInDesign
    let scaleByHeight := s.height / max 1 placedImageHeightInDesign
    max 1 (min scaleByWidth scaleByHeight)

/-- The geometry of the temporary Konva.Image in getCanvasDataUrl: every
component of the placement multiplied by scaleToDesign * exportScale. -/
def mapToExport (design : DesignSpec) (displayWidth exportScale : ℚ)
    (props : ImagePlacement) : ExportGeometry :=
  let std := scaleToDesign design displayWidth
  ⟨props.x * std * exportScale, props.y * std * exportScale,
   props.width * std * exportScale, props.height * std * exportScale⟩

/-- exportWidth in getCanvasDataUrl: Math.round(design.width * exportScale). -/
def exportWidthOf (design : DesignSpec) (exportScale : ℚ) : ℚ :=
  jsRound (design.width * exportScale)

/-- exportHeight in getCanvasDataUrl: Math.round(design.height * exportScale). -/
def exportHeightOf (design : DesignSpec) (exportScale : ℚ) : ℚ :=
  jsRound (design.height * exportScale)

/-- The data of the temporary export stage built by getCanvasDataUrl: its pixel
dimensions and the geometry of the user image placed on it. A successful
toDataURL call on this stage yields the non-empty data URL. -/
structure ExportOutput where
  exportWidth : ℚ
  exportHeight : ℚ
  geometry : ExportGeometry
  deriving DecidableEq, Repr

/-- The component state read by getCanvasDataUrl: whether stageRef.current is
set, the image state (none while no image has loaded), sourceImageSize,
imageProps and displayWidth. -/
structure EditorState where
  stagePresent : Bool
  image : Option Unit
  sourceImageSize : Option SourceSize
  imageProps : ImagePlacement
  displayWidth : ℚ
  deriving DecidableEq, Repr

/-- getCanvasDataUrl: when stageRef.current and image are both set it builds the
temporary export stage (returning its data as some ExportOutput, standing for
the non-empty data URL) and leaves the state unchanged; otherwise it returns
the empty string (none) and also leaves the state unchanged. -/
def getCanvasDataUrl (design : DesignSpec) (st : EditorState) :
    Option ExportOutput × EditorState :=
  if st.stagePresent && st.image.isSome then
    let es := exportScaleOf st.sourceImageSize design st.displayWidth st.imageProps
    (some ⟨exportWidthOf design es, exportHeightOf design es,
           mapToExport design st.displayWidth es st.imageProps⟩, st)
  else (none, st)

/-- The useState initial value of imageProps. -/
def initialImageProps : ImagePlacement :=
  ⟨0, 0, 400, 300, 0, 1, 1⟩

/-- The initial placement set by img.onload (small and centered): width and
height are 20% of the canvas size, x and y center that box. -/
def initialPlacement (canvasWidth canvasHeight : ℚ)
    (prev : ImagePlacement) : ImagePlacement :=
  let initialWidth := canvasWidth * (2 / 10)
  let initialHeight := canvasHeight * (2 / 10)
  { prev with
    width := initialWidth, height := initialHeight,
    x := (canvasWidth - initialWidth) / 2, y := (canvasHeight - initialHeight) / 2 }

/-- The mousemove handler of the move handle (onMouseDown gesture): the new
position is the imageProps snapshot position at gesture start plus the total
pointer delta since gesture start; the other fields are kept from prev. -/
def moveStepMouse (startPointer startImage cur : Point)
    (prev : ImagePlacement) : ImagePlacement :=
  { prev with
    x := startImage.x + (cur.x - startPointer.x),
    y := startImage.y + (cur.y - startPointer.y) }

/-- The touchmove handler of the move handle (onTouchStart gesture): identical
arithmetic to the mouse handler. -/
def moveStepTouch (startPointer startImage cur : Point)
    (prev : ImagePlacement) : ImagePlacement :=
  { prev with
    x := startImage.x + (cur.x - startPointer.x),
    y := startImage.y + (cur.y - startPointer.y) }

/-- handleImageDragEnd: copies the Konva node position into x and y, keeping
every other field of prev. -/
def handleImageDragEnd (target : Point) (prev : ImagePlacement) : ImagePlacement :=
  { prev with x := target.x, y := target.y }

/-- The top-left corner resize handler: clamps the new size to at least 50 and
moves x and y by the actually applied delta so the bottom-right corner stays
fixed. startProps is the imageProps snapshot at gesture start, d the total
pointer delta. -/
def resizeTopLeft (startProps : ImagePlacement) (d : Point) : ImagePlacement :=
  let newWidth := max 50 (startProps.width - d.x)
  let newHeight := max 50 (startProps.height - d.y)
  let actualDeltaX := startProps.width - newWidth
  let actualDeltaY := startProps.height - newHeight
  { startProps with
    x := startProps.x + actualDeltaX, y := startProps.y + actualDeltaY,
    width := newWidth, height := newHeight }

/-- The top-right corner resize handler: width grows with the delta, height is
clamped as for top-left and y compensates so the bottom edge stays fixed. -/
def resizeTopRight (startProps : ImagePlacement) (d : Point) : ImagePlacement :=
  let newWidth := max 50 (startProps.width + d.x)
  let newHeight := max 50 (startProps.height - d.y)
  let actualDeltaY := startProps.height - newHeight
  { startProps with
    y := startProps.y + actualDeltaY,
    width := newWidth, height := newHeight }

/-- The bottom-left corner resize handler: x compensates the clamped width so
the right edge stays fixed; height grows with the delta. -/
def resizeBottomLeft (startProps : ImagePlacement) (d : Point) : ImagePlacement :=
  let newWidth := max 50 (startProps.width - d.x)
  let newHeight := max 50 (startProps.height + d.y)
  let actualDeltaX := startProps.width - newWidth
  { startProps with
    x := startProps.x + actualDeltaX,
    width := newWidth, height := newHeight }

/-- The bottom-right corner resize handler: width and height grow with the
delta (clamped to 50); x and y are untouched. -/
def resizeBottomRight (startProps : ImagePlacement) (d : Point) : ImagePlacement :=
  let newWidth := max 50 (startProps.width + d.x)
  let newHeight := max 50 (startProps.height + d.y)
  { startProps with
    width := newWidth, height := newHeight }

/-- The component state before any image has loaded: stage mounted, image and
sourceImageSize still null, imageProps at the useState default, displayWidth at
the 600×400 default design width. -/
def emptyEditorState : EditorState :=
  ⟨true, none, none, initialImageProps, 600⟩

/-! Theorems. -/

/-- The exportScale computed by getCanvasDataUrl is at least 1 in both branches. -/
theorem one_le_exportScaleOf (src : Option SourceSize) (design : DesignSpec)
    (dw : ℚ) (props : ImagePlacement) : 1 ≤ exportScaleOf src design dw props := by
  cases src with
  | none => exact le_refl 1
  | some s => exact le_max_left _ _

/-- designFor always yields one of the four product design sizes or the default,
which coincides with the 600×400 entry. -/
theorem designFor_cases (productId : String) :
    designFor productId = ⟨900, 400⟩ ∨ designFor productId = ⟨600, 400⟩ ∨
    designFor productId = ⟨400, 400⟩ ∨ designFor productId = ⟨600, 200⟩ := by
  unfold designFor productDimensions
  split_ifs <;> simp

/-- Evaluation of the design lookup at the 600×400 mousepad product id. -/
theorem designFor_mousepad60 : designFor "mousepad-60x40" = ⟨600, 400⟩ := by
  unfold designFor productDimensions
  rw [if_neg (by decide), if_pos rfl]
  rfl

/-- Evaluation of the design lookup at the spacebar product id. -/
theorem designFor_spacebar : designFor "spacebar" = ⟨600, 200⟩ := by
  unfold designFor productDimensions
  rw [if_neg (by decide), if_neg (by decide), if_neg (by decide), if_pos rfl]
  rfl

/-- An integer below a rational is below its half-up rounding. -/
theorem le_jsRound_of_le_int (z : ℤ) (x : ℚ) (h : (z : ℚ) ≤ x) :
    (z : ℚ) ≤ jsRound x := by
  unfold jsRound
  exact_mod_cast Int.le_floor.mpr (by linarith)

/-- C1: for every placement and design with displayWidth > 0 and exportScale 1,
the export geometry computed by getCanvasDataUrl scales x, y, width and height
by the same factor design.width / displayWidth; in particular
mappedWidth = width * design.width / displayWidth. -/
theorem mapToExport_linear_c1 (design : DesignSpec) (dw : ℚ) (props : ImagePlacement)
    (hdw : 0 < dw) :
    mapToExport design dw 1 props =
      ⟨props.x * design.width / dw, props.y * design.width / dw,
       props.width * design.width / dw, props.height * design.width / dw⟩ := by
  simp only [mapToExport, scaleToDesign, ExportGeometry.mk.injEq]
  refine ⟨by ring, by ring, by ring, by ring⟩

/-- Witness for C1 at the spec example: design 900×400, displayWidth 450,
placement (50, 20, 100, 60) maps to export geometry (100, 40, 200, 120). -/
theorem mapToExport_linear_c1_witness :
    (0 : ℚ) < 450 ∧
    mapToExport ⟨900, 400⟩ 450 1 ⟨50, 20, 100, 60, 0, 1, 1⟩ = ⟨100, 40, 200, 120⟩ := by
  refine ⟨by norm_num, ?_⟩
  rw [mapToExport_linear_c1 ⟨900, 400⟩ 450 ⟨50, 20, 100, 60, 0, 1, 1⟩ (by norm_num)]
  simp only [ExportGeometry.mk.injEq]
  norm_num

/-- C3: for every corner resize gesture whose pointer delta does not force the
50px minimum-size clamp, the absolute coordinates of the corner opposite the
dragged handle are unchanged: top-left keeps (x + width, y + height), top-right
keeps (x, y + height), bottom-left keeps (x + width, y), bottom-right keeps
(x, y). -/
theorem resize_opposite_corner_c3 (s : ImagePlacement) (d : Point)
    (hwl : 50 ≤ s.width - d.x) (hwr : 50 ≤ s.width + d.x)
    (hht : 50 ≤ s.height - d.y) (hhb : 50 ≤ s.height + d.y) :
    (resizeTopLeft s d).x + (resizeTopLeft s d).width = s.x + s.width ∧
    (resizeTopLeft s d).y + (resizeTopLeft s d).height = s.y + s.height ∧
    (resizeTopRight s d).x = s.x ∧
    (resizeTopRight s d).y + (resizeTopRight s d).height = s.y + s.height ∧
    (resizeBottomLeft s d).x + (resizeBottomLeft s d).width = s.x + s.width ∧
    (resizeBottomLeft s d).y = s.y ∧
    (resizeBottomRight s d).x = s.x ∧
    (resizeBottomRight s d).y = s.y := by
  refine ⟨?_, ?_, ?_, ?_, ?_, ?_, ?_, ?_⟩ <;>
    simp only [resizeTopLeft, resizeTopRight, resizeBottomLeft, resizeBottomRight] <;>
    ring

/-- Witness for C3: a 100×100 placement at the origin resized with delta
(10, 20), which stays above the 50px floor at every corner. -/
theorem resize_opposite_corner_c3_witness :
    (resizeTopLeft ⟨0, 0, 100, 100, 0, 1, 1⟩ ⟨10, 20⟩).x +
      (resizeTopLeft ⟨0, 0, 100, 100, 0, 1, 1⟩ ⟨10, 20⟩).width =
        (ImagePlacement.x ⟨0, 0, 100, 100, 0, 1, 1⟩) +
        (ImagePlacement.width ⟨0, 0, 100, 100, 0, 1, 1⟩) ∧
    (resizeTopLeft ⟨0, 0, 100, 100, 0, 1, 1⟩ ⟨10, 20⟩).y +
      (resizeTopLeft ⟨0, 0, 100, 100, 0, 1, 1⟩ ⟨10, 20⟩).height =
        (ImagePlacement.y ⟨0, 0, 100, 100, 0, 1, 1⟩) +
        (ImagePlacement.height ⟨0, 0, 100, 100, 0, 1, 1⟩) ∧
    (resizeTopRight ⟨0, 0, 100, 100, 0, 1, 1⟩ ⟨10, 20⟩).x =
        ImagePlacement.x ⟨0, 0, 100, 100, 0, 1, 1⟩ ∧
    (resizeTopRight ⟨0, 0, 100, 100, 0, 1, 1⟩ ⟨10, 20⟩).y +
      (resizeTopRight ⟨0, 0, 100, 100, 0, 1, 1⟩ ⟨10, 20⟩).height =
        (ImagePlacement.y ⟨0, 0, 100, 100, 0, 1, 1⟩) +
        (ImagePlacement.height ⟨0, 0, 100, 100, 0, 1, 1⟩) ∧
    (resizeBottomLeft ⟨0, 0, 100, 100, 0, 1, 1⟩ ⟨10, 20⟩).x +
      (resizeBottomLeft ⟨0, 0, 100, 100, 0, 1, 1⟩ ⟨10, 20⟩).width =
        (ImagePlacement.x ⟨0, 0, 100, 100, 0, 1, 1⟩) +
        (ImagePlacement.width ⟨0, 0, 100, 100, 0, 1, 1⟩) ∧
    (resizeBottomLeft ⟨0, 0, 100, 100, 0, 1, 1⟩ ⟨10, 20⟩).y =
        ImagePlacement.y ⟨0, 0, 100, 100, 0, 1, 1⟩ ∧
    (resizeBottomRight ⟨0, 0, 100, 100, 0, 1, 1⟩ ⟨10, 20⟩).x =
        ImagePlacement.x ⟨0, 0, 100, 100, 0, 1, 1⟩ ∧
    (resizeBottomRight ⟨0, 0, 100, 100, 0, 1, 1⟩ ⟨10, 20⟩).y =
        ImagePlacement.y ⟨0, 0, 100, 100, 0, 1, 1⟩ :=
  resize_opposite_corner_c3 ⟨0, 0, 100, 100, 0, 1, 1⟩ ⟨10, 20⟩
    (by norm_num) (by norm_num) (by norm_num) (by norm_num)

/-- C4 counterexample: displayWidth 100 is reachable (viewport width 130), and
there the initial placement set by img.onload has width 20 < 50, so the 50px
floor is not an invariant across initial placement. -/
theorem initial_placement_below_floor_c4 :
    displayWidthFor (designFor "mousepad-60x40") (some 130) = 100 ∧
    (initialPlacement 100 (displayHeightFor (designFor "mousepad-60x40") 100)
        initialImageProps).width < 50 := by
  rw [designFor_mousepad60]
  constructor
  · norm_num [displayWidthFor, maxVisual, jsFloor, min_def, max_def]
  · norm_num [initialPlacement, displayHeightFor, initialImageProps]

/-- C4 amended: every corner resize gesture clamps both the new width and the
new height to at least 50 regardless of the pointer delta magnitude (the floor
holds for resize gestures; the initial placement on image load can set smaller
sizes). -/
theorem resize_min_floor_c4 (startProps : ImagePlacement) (d : Point) :
    50 ≤ (resizeTopLeft startProps d).width ∧
    50 ≤ (resizeTopLeft startProps d).height ∧
    50 ≤ (resizeTopRight startProps d).width ∧
    50 ≤ (resizeTopRight startProps d).height ∧
    50 ≤ (resizeBottomLeft startProps d).width ∧
    50 ≤ (resizeBottomLeft startProps d).height ∧
    50 ≤ (resizeBottomRight startProps d).width ∧
    50 ≤ (resizeBottomRight startProps d).height := by
  simp only [resizeTopLeft, resizeTopRight, resizeBottomLeft, resizeBottomRight]
  exact ⟨le_max_left _ _, le_max_left _ _, le_max_left _ _, le_max_left _ _,
    le_max_left _ _, le_max_left _ _, le_max_left _ _, le_max_left _ _⟩

/-- C9: the move-handle mouse and touch gestures and the Konva drag-end handler
update only x and y: width, height, rotation, scaleX and scaleY are unchanged. -/
theorem move_updates_only_position_c9 (startPointer startImage cur target : Point)
    (prev : ImagePlacement) :
    ((moveStepMouse startPointer startImage cur prev).width = prev.width ∧
     (moveStepMouse startPointer startImage cur prev).height = prev.height ∧
     (moveStepMouse startPointer startImage cur prev).rotation = prev.rotation ∧
     (moveStepMouse startPointer startImage cur prev).scaleX = prev.scaleX ∧
     (moveStepMouse startPointer startImage cur prev).scaleY = prev.scaleY) ∧
    ((moveStepTouch startPointer startImage cur prev).width = prev.width ∧
     (moveStepTouch startPointer startImage cur prev).height = prev.height ∧
     (moveStepTouch startPointer startImage cur prev).rotation = prev.rotation ∧
     (moveStepTouch startPointer startImage cur prev).scaleX = prev.scaleX ∧
     (moveStepTouch startPointer startImage cur prev).scaleY = prev.scaleY) ∧
    ((handleImageDragEnd target prev).width = prev.width ∧
     (handleImageDragEnd target prev).height = prev.height ∧
     (handleImageDragEnd target prev).rotation = prev.rotation ∧
     (handleImageDragEnd target prev).scaleX = prev.scaleX ∧
     (handleImageDragEnd target prev).scaleY = prev.scaleY) := by
  simp [moveStepMouse, moveStepTouch, handleImageDragEnd]

/-- A nonnegative integer is at most the half-up rounding of its product with a
factor of at least 1. -/
theorem int_le_jsRound_mul (z : ℤ) (hz : 0 ≤ z) (s : ℚ) (hs : 1 ≤ s) :
    (z : ℚ) ≤ jsRound ((z : ℚ) * s) := by
  have hz0 : (0 : ℚ) ≤ (z : ℚ) := by exact_mod_cast hz
  exact le_jsRound_of_le_int z _ (by nlinarith)

/-- C2 counterexample: for source size 10×10, design 600×400, displayWidth 600
and a placement of width and height 1/2, the code computes exportScale 10 while
the claimed formula max(1, min(S.width / w, S.height / h)) gives 20, because
the code divides by max(1, placed size), not by the placed size itself. -/
theorem exportScale_formula_counterexample_c2 :
    exportScaleOf (some ⟨10, 10⟩) ⟨600, 400⟩ 600 ⟨0, 0, 1 / 2, 1 / 2, 0, 1, 1⟩ ≠
      max 1 (min
        ((10 : ℚ) / ((1 / 2) * scaleToDesign ⟨600, 400⟩ 600))
        ((10 : ℚ) / ((1 / 2) * scaleToDesign ⟨600, 400⟩ 600))) := by
  norm_num [exportScaleOf, scaleToDesign, min_def, max_def]

/-- C2 amended: the exportScale computed in getCanvasDataUrl equals
max(1, min(S.width / max(1, w), S.height / max(1, h))) for placed design-space
size (w, h); whenever w ≥ 1 and h ≥ 1 this coincides with the claimed
max(1, min(S.width / w, S.height / h)), is always at least 1, and equals 1
exactly when S.width ≤ w or S.height ≤ h. -/
theorem exportScale_formula_c2 (s : SourceSize) (design : DesignSpec) (dw : ℚ)
    (props : ImagePlacement)
    (hw : 1 ≤ props.width * scaleToDesign design dw)
    (hh : 1 ≤ props.height * scaleToDesign design dw) :
    exportScaleOf (some s) design dw props =
      max 1 (min (s.width / (props.width * scaleToDesign design dw))
                 (s.height / (props.height * scaleToDesign design dw))) ∧
    1 ≤ exportScaleOf (some s) design dw props ∧
    (exportScaleOf (some s) design dw props = 1 ↔
      s.width ≤ props.width * scaleToDesign design dw ∨
      s.height ≤ props.height * scaleToDesign design dw) := by
  have hw0 : 0 < props.width * scaleToDesign design dw := lt_of_lt_of_le one_pos hw
  have hh0 : 0 < props.height * scaleToDesign design dw := lt_of_lt_of_le one_pos hh
  have heq : exportScaleOf (some s) design dw props =
      max 1 (min (s.width / (props.width * scaleToDesign design dw))
                 (s.height / (props.height * scaleToDesign design dw))) := by
    simp only [exportScaleOf]
    rw [max_eq_right hw, max_eq_right hh]
  refine ⟨heq, le_max_left _ _, ?_⟩
  rw [heq, max_eq_left_iff, min_le_iff, div_le_one hw0, div_le_one hh0]

/-- Witness for C2 amended: source 400×360, design 900×400, displayWidth 450,
placement 100×60 (placed design-space size 200×120, both at least 1):
exportScale is 2. -/
theorem exportScale_formula_c2_witness :
    exportScaleOf (some ⟨400, 360⟩) ⟨900, 400⟩ 450 ⟨0, 0, 100, 60, 0, 1, 1⟩ = 2 ∧
    (1 : ℚ) ≤ 100 * scaleToDesign ⟨900, 400⟩ 450 ∧
    (1 : ℚ) ≤ 60 * scaleToDesign ⟨900, 400⟩ 450 := by
  have h := exportScale_formula_c2 ⟨400, 360⟩ ⟨900, 400⟩ 450 ⟨0, 0, 100, 60, 0, 1, 1⟩
    (by norm_num [scaleToDesign]) (by norm_num [scaleToDesign])
  refine ⟨?_, by norm_num [scaleToDesign], by norm_num [scaleToDesign]⟩
  rw [h.1]
  norm_num [scaleToDesign, min_def, max_def]

/-- C5: for every product id and every viewport width, the computed display
width is clamped to at least 100 pixels (both in the useState initializer and
in handleResize), and it is strictly positive also in the window-undefined
branch, so the divisions by displayWidth cannot be divisions by zero. -/
theorem displayWidth_positive_c5 (productId : String) (vw : ℚ) :
    100 ≤ handleResizeWidth (designFor productId) vw ∧
    100 ≤ displayWidthFor (designFor productId) (some vw) ∧
    0 < displayWidthFor (designFor productId) none ∧
    0 < displayWidthFor (designFor productId) (some vw) := by
  have h1 : 100 ≤ handleResizeWidth (designFor productId) vw := by
    simp only [handleResizeWidth]
    exact le_max_left _ _
  have h2 : 100 ≤ displayWidthFor (designFor productId) (some vw) := by
    simp only [displayWidthFor]
    exact le_max_left _ _
  refine ⟨h1, h2, ?_, lt_of_lt_of_le (by norm_num) h2⟩
  rcases designFor_cases productId with h | h | h | h <;> rw [h] <;>
    norm_num [displayWidthFor, min_def]

/-- Folding any list of move events over the move-handle handler never changes
width, height, rotation, scaleX or scaleY. -/
theorem foldl_moveStepMouse_fields (sp si : Point) (es : List Point)
    (p : ImagePlacement) :
    (List.foldl (fun q c => moveStepMouse sp si c q) p es).width = p.width ∧
    (List.foldl (fun q c => moveStepMouse sp si c q) p es).height = p.height ∧
    (List.foldl (fun q c => moveStepMouse sp si c q) p es).rotation = p.rotation ∧
    (List.foldl (fun q c => moveStepMouse sp si c q) p es).scaleX = p.scaleX ∧
    (List.foldl (fun q c => moveStepMouse sp si c q) p es).scaleY = p.scaleY := by
  induction es generalizing p with
  | nil => exact ⟨rfl, rfl, rfl, rfl, rfl⟩
  | cons c cs ih =>
    simp only [List.foldl_cons]
    exact ih (moveStepMouse sp si c p)

/-- C6: during a move gesture every move event computes the position from the
gesture-start snapshot plus the total pointer delta: processing any sequence of
intermediate move events followed by a final event e yields exactly the state
the handler computes for e alone from the snapshot, whose position is
(snap.x + (e.x - start.x), snap.y + (e.y - start.y)); intermediate events
contribute nothing. -/
theorem move_from_snapshot_c6 (startPointer : Point) (snap : ImagePlacement)
    (events : List Point) (e : Point) :
    List.foldl (fun q c => moveStepMouse startPointer ⟨snap.x, snap.y⟩ c q) snap
        (events ++ [e]) =
      moveStepMouse startPointer ⟨snap.x, snap.y⟩ e snap ∧
    (moveStepMouse startPointer ⟨snap.x, snap.y⟩ e snap).x =
      snap.x + (e.x - startPointer.x) ∧
    (moveStepMouse startPointer ⟨snap.x, snap.y⟩ e snap).y =
      snap.y + (e.y - startPointer.y) := by
  refine ⟨?_, rfl, rfl⟩
  rw [List.foldl_append]
  simp only [List.foldl_cons, List.foldl_nil]
  obtain ⟨hw, hh, hr, hsx, hsy⟩ :=
    foldl_moveStepMouse_fields startPointer ⟨snap.x, snap.y⟩ events snap
  exact ImagePlacement.ext rfl rfl hw hh hr hsx hsy

/-- C7: when the image state is null, getCanvasDataUrl returns the empty result
(the empty string) and leaves the state unchanged; a non-empty data URL (a some
result) is produced only when an image has loaded. -/
theorem getCanvasDataUrl_requires_image_c7 (design : DesignSpec) (st : EditorState) :
    (st.image = none → getCanvasDataUrl design st = (none, st)) ∧
    (∀ out : ExportOutput, (getCanvasDataUrl design st).1 = some out →
      st.image.isSome = true) := by
  constructor
  · intro h
    simp [getCanvasDataUrl, h]
  · intro out h
    by_cases hc : (st.stagePresent && st.image.isSome) = true
    · exact (Bool.and_eq_true _ _ |>.mp hc).2
    · exfalso
      simp [getCanvasDataUrl, hc] at h

/-- Witness for C7: on the pre-load state with a null image, getCanvasDataUrl
returns the empty result and the unchanged state. -/
theorem getCanvasDataUrl_requires_image_c7_witness :
    getCanvasDataUrl ⟨600, 400⟩ emptyEditorState = (none, emptyEditorState) :=
  (getCanvasDataUrl_requires_image_c7 ⟨600, 400⟩ emptyEditorState).1 rfl

/-- C8: the export canvas dimensions are round(design.width * exportScale) and
round(design.height * exportScale), and since exportScale is at least 1 they
are at least the nominal design dimensions for every product. -/
theorem export_dimensions_c8 (productId : String) (src : Option SourceSize)
    (dw : ℚ) (props : ImagePlacement) :
    exportWidthOf (designFor productId)
        (exportScaleOf src (designFor productId) dw props) =
      jsRound ((designFor productId).width *
        exportScaleOf src (designFor productId) dw props) ∧
    (designFor productId).width ≤
      exportWidthOf (designFor productId)
        (exportScaleOf src (designFor productId) dw props) ∧
    (designFor productId).height ≤
      exportHeightOf (designFor productId)
        (exportScaleOf src (designFor productId) dw props) := by
  have hs := one_le_exportScaleOf src (designFor productId) dw props
  refine ⟨rfl, ?_, ?_⟩
  · rcases designFor_cases productId with h | h | h | h <;> rw [h] at hs ⊢ <;>
      first
        | simpa [exportWidthOf] using int_le_jsRound_mul 900 (by norm_num) _ hs
        | simpa [exportWidthOf] using int_le_jsRound_mul 600 (by norm_num) _ hs
        | simpa [exportWidthOf] using int_le_jsRound_mul 400 (by norm_num) _ hs
  · rcases designFor_cases productId with h | h | h | h <;> rw [h] at hs ⊢ <;>
      first
        | simpa [exportHeightOf] using int_le_jsRound_mul 400 (by norm_num) _ hs
        | simpa [exportHeightOf] using int_le_jsRound_mul 200 (by norm_num) _ hs

/-- C10: for every product and every positive display width, the derived
display height is displayWidth * design.height / design.width, so the display
canvas keeps the design aspect ratio: displayWidth / displayHeight equals
design.width / design.height. -/
theorem display_aspect_ratio_c10 (productId : String) (dw : ℚ) (hdw : 0 < dw) :
    displayHeightFor (designFor productId) dw =
      dw * (designFor productId).height / (designFor productId).width ∧
    dw / displayHeightFor (designFor productId) dw =
      (designFor productId).width / (designFor productId).height := by
  refine ⟨rfl, ?_⟩
  have h0 : dw ≠ 0 := ne_of_gt hdw
  rcases designFor_cases productId with h | h | h | h <;> rw [h] <;>
    simp only [displayHeightFor] <;> field_simp <;> ring

/-- Witness for C10 at the spacebar product and displayWidth 300. -/
theorem display_aspect_ratio_c10_witness :
    displayHeightFor (designFor "spacebar") 300 =
      300 * (designFor "spacebar").height / (designFor "spacebar").width ∧
    300 / displayHeightFor (designFor "spacebar") 300 =
      (designFor "spacebar").width / (designFor "spacebar").height :=
  display_aspect_ratio_c10 "spacebar" 300 (by norm_num)

end OniCustom
